import Mathlib

/-! # Game Stock Advisor: the browser controller `static/js/script.js`

A shallow embedding of the controller and the properties its specification
states about it.

Modelling conventions

* A JavaScript string is a Lean `String`.  Every character the program
  inspects is ASCII, so reading a string as a sequence of Unicode scalars
  instead of UTF-16 code units changes nothing the program observes, with
  one exception, `length`, which is computed in code units (`utf16Length`).
* A value decoded from JSON is a `JsValue`.  A number is kept as the text
  `Number::toString` yields for it: the program never computes with a JSON
  number, it only string-coerces it and tests its truthiness.
* A statement that can throw is an `Except JsError _`; state changes made
  before the throw are kept (`Page × Except JsError Unit`).
* The page is a record of the properties of the named elements the script
  touches, together with the requests issued and the timers scheduled.
* An `async` function is a function of what the network answers
  (`FetchOutcome`); `trainModel` is moreover split at its suspension point.
-/

namespace GameStockAdvisor

/-! ## JavaScript values -/

/-- An exception value; only its `message` is ever read by the script. -/
structure JsError where
  message : String
  deriving DecidableEq

/-- A JavaScript value as `JSON.parse` can produce it, plus `undefined`
(the result of reading an absent property). -/
inductive JsValue where
  | undefined : JsValue
  | null : JsValue
  | bool (b : Bool) : JsValue
  | num (text : String) : JsValue
  | str (s : String) : JsValue
  | arr (items : List JsValue) : JsValue
  | obj (props : List (String × JsValue)) : JsValue

/-- Own-property lookup in the property list of an object. -/
def lookupProp (key : String) : List (String × JsValue) → Option JsValue
  | [] => none
  | (k, v) :: rest => if k = key then some v else lookupProp key rest

/-- Whether an object has an own property `key`. -/
def hasOwn (key : String) : List (String × JsValue) → Bool
  | [] => false
  | (k, _) :: rest => k = key || hasOwn key rest

/-- The engine text of the TypeError raised by ToPrimitive on an object whose
`toString` is not callable. -/
def msgNotPrimitive : String := "Cannot convert object to primitive value"

/-- The engine text of the TypeError raised by reading `prop` of `null` or
`undefined`. -/
def msgReadNullish (what prop : String) : String :=
  "Cannot read properties of " ++ what ++ " (reading '" ++ prop ++ "')"

/-- The engine text of the TypeError raised by calling a non-function. -/
def msgNotFunction (expr : String) : String := expr ++ " is not a function"

mutual
/-- ToString: what `String(v)` and a template substitution yield.
An array is its elements joined by commas (`joinFrom true`).  An object
decoded from JSON is `[object Object]`, unless it has an own `toString`
property: that property is not callable, `valueOf` returns the object itself,
and ToPrimitive throws. -/
def toJsString : JsValue → Except JsError String
  | .undefined => .ok "undefined"
  | .null => .ok "null"
  | .bool true => .ok "true"
  | .bool false => .ok "false"
  | .num text => .ok text
  | .str s => .ok s
  | .arr items => joinFrom true items
  | .obj props =>
      if hasOwn "toString" props then .error ⟨msgNotPrimitive⟩ else .ok "[object Object]"
termination_by structural v => v
/-- The body of `Array.prototype.join` with the default separator: every
element but the first is preceded by a comma, and a `null` or `undefined`
element counts as the empty string. -/
def joinFrom (first : Bool) : List JsValue → Except JsError String
  | [] => .ok ""
  | x :: rest =>
      let head : Except JsError String :=
        match x with
        | .undefined => .ok ""
        | .null => .ok ""
        | v => toJsString v
      match head with
      | .error e => .error e
      | .ok s =>
          match joinFrom false rest with
          | .error e => .error e
          | .ok t => .ok ((if first then "" else ",") ++ s ++ t)
termination_by structural l => l
end

/-- ToBoolean.  Of the numbers only zero (and NaN) is falsy. -/
def truthy : JsValue → Bool
  | .undefined => false
  | .null => false
  | .bool b => b
  | .num text => !(text = "0" || text = "NaN")
  | .str s => !(s = "")
  | .arr _ => true
  | .obj _ => true

/-- The number of UTF-16 code units of a string. -/
def utf16Length (s : String) : Nat :=
  (s.data.map fun c => if c.val.toNat < 65536 then 1 else 2).sum

/-- Reading the property `prop` of a value, for the property names the script
uses (`length` apart, none of them is defined on a built-in prototype).
Reading a property of `null` or `undefined` throws. -/
def getProp (v : JsValue) (prop : String) : Except JsError JsValue :=
  match v with
  | .undefined => .error ⟨msgReadNullish "undefined" prop⟩
  | .null => .error ⟨msgReadNullish "null" prop⟩
  | .bool _ => .ok .undefined
  | .num _ => .ok .undefined
  | .str s => if prop = "length" then .ok (.num (toString (utf16Length s))) else .ok .undefined
  | .arr items =>
      if prop = "length" then .ok (.num (toString items.length)) else .ok .undefined
  | .obj props =>
      match lookupProp prop props with
      | some x => .ok x
      | none => .ok .undefined

/-! ## `escapeHtml` -/

/-- The object literal `map` of `escapeHtml`. -/
def escapeMap : List (String × String) :=
  [("&", "&amp;"), ("<", "&lt;"), (">", "&gt;"), ("\"", "&quot;"), ("\x27", "&#039;")]

/-- The expression `map[m]`; an absent key reads `undefined`. -/
def escapeMapGet (m : String) : String :=
  match escapeMap.lookup m with
  | some r => r
  | none => "undefined"

/-- The character class of the regular expression `/[&<>"']/g`. -/
def escapeClass : List Char := ['&', '<', '>', Char.ofNat 34, Char.ofNat 39]

/-- The method `String.prototype.replace` for a global regular expression
that is a character class `cls`, with a replacer function `fn`: the string is
scanned once from the left, each match (one character of the class) is replaced
by `fn` of the matched text, every other character is copied. -/
def replaceClassGlobal (cls : List Char) (fn : String → String) : List Char → List Char
  | [] => []
  | c :: cs =>
      if c ∈ cls then (fn (String.singleton c)).data ++ replaceClassGlobal cls fn cs
      else c :: replaceClassGlobal cls fn cs

/-- The part of `escapeHtml` after `String(text)`. -/
def escapeString (s : String) : String :=
  ⟨replaceClassGlobal escapeClass escapeMapGet s.data⟩

/-- The function `escapeHtml(text)`. -/
def escapeHtml (text : JsValue) : Except JsError String :=
  match toJsString text with
  | .error e => .error e
  | .ok s => .ok (escapeString s)

/-- The escaping table in the words of the specification: the entity for each
of the five characters, the character itself otherwise. -/
def escapeCharSpec (c : Char) : String :=
  if c = '&' then "&amp;"
  else if c = '<' then "&lt;"
  else if c = '>' then "&gt;"
  else if c = Char.ofNat 34 then "&quot;"
  else if c = Char.ofNat 39 then "&#039;"
  else String.singleton c

/-- The concatenation, over the characters of a text in order, of their images
under `f`. -/
def concatOver (f : Char → String) : List Char → String
  | [] => ""
  | c :: cs => f c ++ concatOver f cs

/-- The specification of `escapeHtml` on a string: the images of its characters
under `escapeCharSpec`, concatenated in order. -/
def escapeSpec (s : String) : String :=
  concatOver escapeCharSpec s.data

/-! ## Validation of the max-games text: the comparison `maxGames < 1` -/

/-- The characters `StringToNumber` strips from both ends (WhiteSpace and
LineTerminator). -/
def isStrWhiteSpace (c : Char) : Bool :=
  let n := c.toNat
  n = 9 || n = 10 || n = 11 || n = 12 || n = 13 || n = 32 || n = 160 || n = 5760 ||
  (8192 ≤ n && n ≤ 8202) || n = 8232 || n = 8233 || n = 8239 || n = 8287 || n = 12288 ||
  n = 65279

/-- The mathematical value of a numeric string, before rounding to a double. -/
inductive NumericValue where
  | nan : NumericValue
  | posInf : NumericValue
  | negInf : NumericValue
  | finite (negative : Bool) (mantissa : Nat) (exp10 : Int) : NumericValue
  deriving DecidableEq

/-- The value of a digit in a base up to sixteen, if it is one. -/
def digitValue (base : Nat) (c : Char) : Option Nat :=
  let n := c.toNat
  let d :=
    if 48 ≤ n && n ≤ 57 then n - 48
    else if 97 ≤ n && n ≤ 102 then n - 87
    else if 65 ≤ n && n ≤ 70 then n - 55
    else 16
  if d < base then some d else none

/-- The value of a non-empty run of digits in `base` that makes up all of
`cs`; `none` if `cs` is empty or holds another character. -/
def digitsValue (base : Nat) (cs : List Char) : Option Nat :=
  if cs = [] then none
  else cs.foldl (fun acc c => match acc, digitValue base c with
    | some a, some d => some (a * base + d)
    | _, _ => none) (some 0)

/-- ExponentPart, optional, up to the end of the text: the exponent. -/
def parseExponent (cs : List Char) : Option Int :=
  match cs with
  | [] => some 0
  | c :: rest =>
      if c = 'e' || c = 'E' then
        match rest with
        | '+' :: ds => (digitsValue 10 ds).map fun n => (n : Int)
        | '-' :: ds => (digitsValue 10 ds).map fun n => -(n : Int)
        | ds => (digitsValue 10 ds).map fun n => (n : Int)
      else none

/-- StrUnsignedDecimalLiteral other than `Infinity`: mantissa and decimal
exponent of `digits [. digits] [exponent]` or `. digits [exponent]`. -/
def parseUnsignedDecimal (cs : List Char) : Option (Nat × Int) :=
  let intPart := cs.takeWhile Char.isDigit
  let afterInt := cs.dropWhile Char.isDigit
  match afterInt with
  | '.' :: more =>
      let fracPart := more.takeWhile Char.isDigit
      let afterFrac := more.dropWhile Char.isDigit
      if intPart = [] && fracPart = [] then none
      else
        match digitsValue 10 ('0' :: (intPart ++ fracPart)), parseExponent afterFrac with
        | some m, some e => some (m, e - (fracPart.length : Int))
        | _, _ => none
  | _ =>
      match digitsValue 10 intPart, parseExponent afterInt with
      | some m, some e => some (m, e)
      | _, _ => none

/-- StrNumericLiteral, the text already trimmed. -/
def parseNumericLiteral (cs : List Char) : NumericValue :=
  let unsigned (negative : Bool) (ds : List Char) : NumericValue :=
    if ds = "Infinity".data then (if negative then .negInf else .posInf)
    else
      match parseUnsignedDecimal ds with
      | some (m, e) => .finite negative m e
      | none => .nan
  let radix (base : Nat) (ds : List Char) : NumericValue :=
    match digitsValue base ds with
    | some m => .finite false m 0
    | none => .nan
  match cs with
  | [] => .finite false 0 0
  | '0' :: 'x' :: ds => radix 16 ds
  | '0' :: 'X' :: ds => radix 16 ds
  | '0' :: 'o' :: ds => radix 8 ds
  | '0' :: 'O' :: ds => radix 8 ds
  | '0' :: 'b' :: ds => radix 2 ds
  | '0' :: 'B' :: ds => radix 2 ds
  | '+' :: ds => unsigned false ds
  | '-' :: ds => unsigned true ds
  | ds => unsigned false ds

/-- StringToNumber, before rounding: white space is stripped from both ends
and the rest read as a numeric literal. -/
def stringToNumber (s : String) : NumericValue :=
  parseNumericLiteral
    ((s.data.dropWhile isStrWhiteSpace).reverse.dropWhile isStrWhiteSpace).reverse

/-- The comparison `text < 1` of a string with the number one: the string is
converted by ToNumber.  NaN compares false.  A finite value is rounded to the
nearest double, ties to even, before it is compared: the doubles next to one
are `1 - 2^-53` and `1`, so the rounded value is below one exactly when the
mathematical value is below the midpoint `1 - 2^-54`. -/
def lessThanOne (text : String) : Bool :=
  match stringToNumber text with
  | .nan => false
  | .posInf => false
  | .negInf => true
  | .finite negative m e =>
      if m = 0 || negative then true
      else if 0 ≤ e then false
      else decide (m * 2 ^ 54 < (2 ^ 54 - 1) * 10 ^ e.natAbs)

/-! ## The page -/

/-- A game card: the `div` that `createGameCard` builds. -/
structure Card where
  className : String
  innerHTML : String
  deriving DecidableEq

/-- The two callbacks the script passes to `setTimeout`. -/
inductive TimerAction where
  | enableTrainBtn : TimerAction
  | scrollToResults : TimerAction
  deriving DecidableEq

/-- A scheduled timer: delay in milliseconds and callback. -/
structure Timer where
  delay : Nat
  action : TimerAction
  deriving DecidableEq

/-- A call of `fetch`.  Both are POST requests with content type
`application/json`; the body of the predict request is the JSON text of
`{year: parseInt(year), max_games: parseInt(maxGames)}`, recorded here by
the two input texts. -/
inductive Request where
  | train : Request
  | predict (year maxGames : String) : Request
  deriving DecidableEq

/-- The state of the page: the properties of the named elements the script
reads or writes, the requests issued and the timers scheduled so far. -/
structure Page where
  yearInputValue : String
  maxGamesValue : String
  trainBtnDisabled : Bool
  trainBtnText : String
  trainStatusText : String
  trainStatusColor : String
  loadingHidden : Bool
  errorText : String
  errorHidden : Bool
  resultsSectionHidden : Bool
  resultsSummaryHTML : String
  gamesGrid : List Card
  requests : List Request
  timers : List Timer
  deriving DecidableEq

/-- What the network answers to a `fetch`: the promise rejects, or a response
arrives, with its `ok` flag (status 2xx) and what `response.json()` settles
to (a rejection when the body is not JSON). -/
inductive FetchOutcome where
  | rejected (error : JsError) : FetchOutcome
  | responded (ok : Bool) (json : Except JsError JsValue) : FetchOutcome

/-- The conversion applied by the `textContent` setter, a nullable DOMString:
`null` and `undefined` give the empty text, anything else goes through
ToString. -/
def toTextContent : JsValue → Except JsError String
  | .undefined => .ok ""
  | .null => .ok ""
  | v => toJsString v

/-- The function `showLoading(show)`. -/
def showLoading (chosen : Bool) (p : Page) : Page :=
  if chosen then { p with loadingHidden := false } else { p with loadingHidden := true }

/-- The function `showError(message)`. -/
def showError (message : JsValue) (p : Page) : Page × Except JsError Unit :=
  match toTextContent message with
  | .error e => (p, .error e)
  | .ok text => ({ p with errorText := text, errorHidden := false }, .ok ())

/-- The function `hideError()`. -/
def hideError (p : Page) : Page :=
  { p with errorHidden := true }

/-- Running a timer callback. -/
def fireTimer (a : TimerAction) (p : Page) : Page :=
  match a with
  | .enableTrainBtn => { p with trainBtnDisabled := false }
  | .scrollToResults => p

/-! ## Rendering -/

/-- A template substitution of `v.prop`: the property is read and converted
by ToString. -/
def fieldText (v : JsValue) (prop : String) : Except JsError String :=
  match getProp v prop with
  | .error e => .error e
  | .ok x => toJsString x

/-- A template substitution of `escapeHtml(v.prop)`. -/
def fieldEscaped (v : JsValue) (prop : String) : Except JsError String :=
  match getProp v prop with
  | .error e => .error e
  | .ok x => escapeHtml x

/-- The template `rankBadge`. -/
def rankBadge (rank : String) : String :=
  "<div class=\"game-rank\">#" ++
  rank ++
  "</div>"

/-- The template `gameDetails`, its four substitutions already escaped. -/
def gameDetails (name platform genre publisher : String) : String :=
  "\n        <div class=\"game-name\">" ++
  name ++
  "</div>\n        <div class=\"game-details\">\n            <div class=\"game-detail\">\n                <span class=\"game-detail-label\">Platform:</span>\n                <span class=\"game-platform\">" ++
  platform ++
  "</span>\n            </div>\n            <div class=\"game-detail\">\n                <span class=\"game-detail-label\">Genre:</span>\n                <span class=\"game-genre\">" ++
  genre ++
  "</span>\n            </div>\n            <div class=\"game-detail\">\n                <span class=\"game-detail-label\">Publisher:</span>\n                <span class=\"game-detail-value\">" ++
  publisher ++
  "</span>\n            </div>\n        </div>\n    "

/-- The template `salesInfo`. -/
def salesInfo (predictedSales : String) : String :=
  "\n        <div class=\"game-sales\">\n            <div class=\"sales-label\">Predicted Global Sales</div>\n            <div class=\"sales-value\">" ++
  predictedSales ++
  "M</div>\n        </div>\n    "

/-- The template `regionalBreakdown`. -/
def regionalBreakdown (na eu jp other : String) : String :=
  "\n        <div class=\"regional-breakdown\">\n            <div class=\"regional-item\">\n                <div class=\"regional-label\">NA</div>\n                <div class=\"regional-value\">" ++
  na ++
  "M</div>\n            </div>\n            <div class=\"regional-item\">\n                <div class=\"regional-label\">EU</div>\n                <div class=\"regional-value\">" ++
  eu ++
  "M</div>\n            </div>\n            <div class=\"regional-item\">\n                <div class=\"regional-label\">JP</div>\n                <div class=\"regional-value\">" ++
  jp ++
  "M</div>\n            </div>\n            <div class=\"regional-item\">\n                <div class=\"regional-label\">Other</div>\n                <div class=\"regional-value\">" ++
  other ++
  "M</div>\n            </div>\n        </div>\n    "

/-- The markup assigned to `card.innerHTML`. -/
def cardHTML (rank name platform genre publisher predictedSales na eu jp other : String) :
    String :=
  rankBadge rank ++ gameDetails name platform genre publisher ++ salesInfo predictedSales ++
    regionalBreakdown na eu jp other

/-- The function `createGameCard(game)`.  The substitutions are evaluated in
source order, and the first one that throws ends the call. -/
def createGameCard (game : JsValue) : Except JsError Card :=
  match fieldText game "rank" with
  | .error e => .error e
  | .ok rank =>
  match fieldEscaped game "name" with
  | .error e => .error e
  | .ok name =>
  match fieldEscaped game "platform" with
  | .error e => .error e
  | .ok platform =>
  match fieldEscaped game "genre" with
  | .error e => .error e
  | .ok genre =>
  match fieldEscaped game "publisher" with
  | .error e => .error e
  | .ok publisher =>
  match fieldText game "predicted_sales" with
  | .error e => .error e
  | .ok predictedSales =>
  match fieldText game "na_sales" with
  | .error e => .error e
  | .ok na =>
  match fieldText game "eu_sales" with
  | .error e => .error e
  | .ok eu =>
  match fieldText game "jp_sales" with
  | .error e => .error e
  | .ok jp =>
  match fieldText game "other_sales" with
  | .error e => .error e
  | .ok other =>
    .ok ⟨"game-card",
      cardHTML rank name platform genre publisher predictedSales na eu jp other⟩

/-- The template `summaryHTML`. -/
def summaryTemplate (year totalGames requestedStock count message : String) : String :=
  "\n        <p>📅 <strong>Year:</strong> " ++
  year ++
  " | \n           📊 <strong>Total Games Analyzed:</strong> " ++
  totalGames ++
  " | \n           📦 <strong>Stocks Requested:</strong> " ++
  requestedStock ++
  " | \n           ⭐ <strong>Top Recommendations:</strong> " ++
  count ++
  "</p>\n        <p style=\"color: #10b981; font-weight: 600; margin-top: 8px;\">✅ " ++
  message ++
  "</p>\n    "

/-- The evaluation of the template literal `summaryHTML` of `displayResults`. -/
def summaryHTML (data : JsValue) : Except JsError String :=
  match fieldText data "year" with
  | .error e => .error e
  | .ok year =>
  match fieldText data "total_games" with
  | .error e => .error e
  | .ok totalGames =>
  match fieldText data "requested_stock" with
  | .error e => .error e
  | .ok requestedStock =>
  match getProp data "games" with
  | .error e => .error e
  | .ok games =>
  match fieldText games "length" with
  | .error e => .error e
  | .ok count =>
  match fieldText data "message" with
  | .error e => .error e
  | .ok message => .ok (summaryTemplate year totalGames requestedStock count message)

/-- The loop `forEach(game => gamesGrid.appendChild(createGameCard(game)))` over
the elements of an array. -/
def appendCards : List JsValue → Page → Page × Except JsError Unit
  | [], p => (p, .ok ())
  | game :: rest, p =>
      match createGameCard game with
      | .error e => (p, .error e)
      | .ok card => appendCards rest { p with gamesGrid := p.gamesGrid ++ [card] }

/-- The statement `data.games.forEach(...)`: only an array has a callable
`forEach`; on a nullish value the property read throws, on any other value
the call does. -/
def forEachGame (games : JsValue) (p : Page) : Page × Except JsError Unit :=
  match games with
  | .arr items => appendCards items p
  | other =>
      match getProp other "forEach" with
      | .error e => (p, .error e)
      | .ok _ => (p, .error ⟨msgNotFunction "data.games.forEach"⟩)

/-- The function `displayResults(data)`. -/
def displayResults (data : JsValue) (p : Page) : Page × Except JsError Unit :=
  match summaryHTML data with
  | .error e => (p, .error e)
  | .ok html =>
      let p1 := { p with resultsSummaryHTML := html }
      let p2 := { p1 with gamesGrid := [] }
      match getProp data "games" with
      | .error e => (p2, .error e)
      | .ok games =>
          match forEachGame games p2 with
          | (p3, .error e) => (p3, .error e)
          | (p3, .ok _) =>
              ({ p3 with resultsSectionHidden := false,
                          timers := p3.timers ++ [⟨300, .scrollToResults⟩] }, .ok ())

/-! ## The two workflows -/

/-- The part of `trainModel` up to its first suspension: the button is disabled,
the status texts are set and the request is issued. -/
def trainModelStart (p : Page) : Page :=
  { p with
    trainBtnDisabled := true
    trainBtnText := "🔄 Training..."
    trainStatusText := "Training model, please wait..."
    trainStatusColor := "#2563eb"
    requests := p.requests ++ [.train] }

/-- The `try` block of `trainModel` from the point where `fetch` settles.
The status of the response is not consulted. -/
def trainTry (net : FetchOutcome) (p : Page) : Page × Except JsError Unit :=
  match net with
  | .rejected e => (p, .error e)
  | .responded _ (.error e) => (p, .error e)
  | .responded _ (.ok data) =>
      match getProp data "success" with
      | .error e => (p, .error e)
      | .ok success =>
          if truthy success then
            let p1 := { p with trainBtnText := "✅ Model Trained" }
            match getProp data "message" with
            | .error e => (p1, .error e)
            | .ok message =>
                match toTextContent message with
                | .error e => (p1, .error e)
                | .ok text =>
                    ({ p1 with trainStatusText := text, trainStatusColor := "#10b981" }, .ok ())
          else
            let p1 := { p with trainBtnText := "❌ Training Failed" }
            match fieldText data "error" with
            | .error e => (p1, .error e)
            | .ok text =>
                ({ p1 with trainStatusText := "❌ Error: " ++ text,
                           trainStatusColor := "#ef4444" }, .ok ())

/-- The rest of `trainModel` once `fetch` has settled: the `try` block, the
`catch` clause when it throws, and the `finally` clause, which schedules the
re-enabling of the button.  The second component is how the call completes. -/
def trainModelSettle (net : FetchOutcome) (p : Page) : Page × Except JsError Unit :=
  let caught : Page :=
    match trainTry net p with
    | (p1, .ok _) => p1
    | (p1, .error e) =>
        { p1 with
          trainBtnText := "❌ Error"
          trainStatusText := "❌ Error: " ++ e.message
          trainStatusColor := "#ef4444" }
  ({ caught with timers := caught.timers ++ [⟨1000, .enableTrainBtn⟩] }, .ok ())

/-- The function `trainModel()`, run against a network that answers `net`. -/
def trainModel (net : FetchOutcome) (p : Page) : Page × Except JsError Unit :=
  trainModelSettle net (trainModelStart p)

/-- The `try` block of `getPredictions` from the point where `fetch` settles. -/
def predictTry (net : FetchOutcome) (p : Page) : Page × Except JsError Unit :=
  match net with
  | .rejected e => (p, .error e)
  | .responded _ (.error e) => (p, .error e)
  | .responded ok (.ok data) =>
      let failed : Except JsError Bool :=
        if !ok then .ok true
        else
          match getProp data "success" with
          | .error e => .error e
          | .ok success => .ok (!truthy success)
      match failed with
      | .error e => (p, .error e)
      | .ok true =>
          match getProp data "error" with
          | .error e => (p, .error e)
          | .ok error =>
              let message := if truthy error then error else .str "Failed to get predictions"
              match showError message p with
              | (p1, .error e) => (p1, .error e)
              | (p1, .ok _) => (showLoading false p1, .ok ())
      | .ok false =>
          match displayResults data p with
          | (p1, .error e) => (p1, .error e)
          | (p1, .ok _) => (showLoading false p1, .ok ())

/-- The function `getPredictions()`, run against a network that answers `net`
if asked.  The second component is how the call completes: `.error` would be
an exception that escapes. -/
def getPredictions (net : FetchOutcome) (p : Page) : Page × Except JsError Unit :=
  let year := p.yearInputValue
  let maxGames := p.maxGamesValue
  if year = "" then showError (.str "Please enter a year") p
  else if maxGames = "" || lessThanOne maxGames then
    showError (.str "Please enter a valid number of games") p
  else
    let p1 := hideError (showLoading true p)
    let p2 := { p1 with requests := p1.requests ++ [.predict year maxGames] }
    match predictTry net p2 with
    | (p3, .ok _) => (p3, .ok ())
    | (p3, .error e) =>
        match showError
            (.str ("An error occurred while fetching predictions: " ++ e.message)) p3 with
        | (p4, .error e2) => (p4, .error e2)
        | (p4, .ok _) => (showLoading false p4, .ok ())

/-- Whether `needle` occurs in `text` (`String.prototype.includes`). -/
def includes (text needle : String) : Prop :=
  needle.data <:+: text.data

instance (text needle : String) : Decidable (includes text needle) := by
  unfold includes; infer_instance

/-! ## Sample inputs -/

/-- A page as loaded: year 2015 and ten games entered, nothing shown yet. -/
def samplePage : Page :=
  { yearInputValue := "2015"
    maxGamesValue := "10"
    trainBtnDisabled := false
    trainBtnText := "Train Model"
    trainStatusText := ""
    trainStatusColor := ""
    loadingHidden := true
    errorText := ""
    errorHidden := true
    resultsSectionHidden := true
    resultsSummaryHTML := ""
    gamesGrid := []
    requests := []
    timers := [] }

/-- The game record of the first end-to-end scenario of the specification. -/
def sampleGame : JsValue :=
  .obj [("rank", .num "1"), ("name", .str "Game A"), ("platform", .str "PS4"),
    ("genre", .str "Action"), ("publisher", .str "Pub"), ("predicted_sales", .num "1.2"),
    ("na_sales", .num "0.5"), ("eu_sales", .num "0.3"), ("jp_sales", .num "0.2"),
    ("other_sales", .num "0.2")]

/-- The predict response of the first end-to-end scenario. -/
def sampleResponse : JsValue :=
  .obj [("success", .bool true), ("year", .num "2015"), ("total_games", .num "500"),
    ("requested_stock", .num "10"), ("message", .str "OK"), ("games", .arr [sampleGame])]

/-! ## Well-formed responses -/

/-- A value that is neither an array nor an object. -/
def isPrimitive : JsValue → Bool
  | .arr _ => false
  | .obj _ => false
  | _ => true

/-- The property `key` of an object is absent or primitive. -/
def primitiveAt (props : List (String × JsValue)) (key : String) : Bool :=
  match lookupProp key props with
  | some v => isPrimitive v
  | none => true

/-- The ten properties `createGameCard` reads. -/
def gameFieldNames : List String :=
  ["rank", "name", "platform", "genre", "publisher", "predicted_sales", "na_sales",
    "eu_sales", "jp_sales", "other_sales"]

/-- A GameResult of the data model: an object whose ten rendered properties
are numbers or strings (any primitive is admitted). -/
def isGameRecord : JsValue → Bool
  | .obj props => gameFieldNames.all (primitiveAt props)
  | _ => false

/-- A PredictionResponse of the data model: an object with primitive `year`,
`total_games`, `requested_stock` and `message`, whose `games` is an array of
game records. -/
def isPredictResponse : JsValue → Bool
  | .obj props =>
      ["year", "total_games", "requested_stock", "message"].all (primitiveAt props) &&
      match lookupProp "games" props with
      | some (.arr items) => items.all isGameRecord
      | _ => false
  | _ => false

/-- The text the `catch` clause of `getPredictions` shows for an exception. -/
def catchText (e : JsError) : String :=
  "An error occurred while fetching predictions: " ++ e.message

/-- The page at the moment `getPredictions` has issued its request: loading
indicator shown, error banner hidden, request recorded. -/
def awaitingPredict (p : Page) : Page :=
  { p with
    loadingHidden := false
    errorHidden := true
    requests := p.requests ++ [.predict p.yearInputValue p.maxGamesValue] }

/-- The failure response of the second end-to-end scenario. -/
def sampleFailure : JsValue :=
  .obj [("success", .bool false), ("error", .str "No data for year")]

/-! ## Searching a text for the script tag -/

/-- The raw tag the specification speaks of. -/
def scriptTag : String := "<script>"

/-- Its escaped form. -/
def escapedScriptTag : String := "&lt;script&gt;"

/-- One step of a left-to-right search for `scriptTag`: the state is the number
of leading characters of the tag that end the text read so far, 8 once the
tag has been read in full. -/
def scanStep (k : Nat) (c : Char) : Nat :=
  if 8 ≤ k then 8
  else if scriptTag.data[k]? = some c then k + 1
  else if c = '<' then 1
  else 0

/-- The search state after reading `cs` from state `k`. -/
def scan (k : Nat) (cs : List Char) : Nat :=
  cs.foldl scanStep k

/-- A text after which the search is back in its initial state, whatever
state short of a full match it was read from. -/
def resets (t : List Char) : Bool :=
  (List.range 8).all fun k => scan k t = 0

/-- The sample game with its name replaced by markup. -/
def scriptNameGame : JsValue :=
  .obj [("rank", .num "1"), ("name", .str "<script>alert(1)</script>"),
    ("platform", .str "PS4"), ("genre", .str "Action"), ("publisher", .str "Pub"),
    ("predicted_sales", .num "1.2"), ("na_sales", .num "0.5"), ("eu_sales", .num "0.3"),
    ("jp_sales", .num "0.2"), ("other_sales", .num "0.2")]

/-- The sample game with a string holding markup as its rank. -/
def scriptRankGame : JsValue :=
  .obj [("rank", .str "<script>"), ("name", .str "Game A"),
    ("platform", .str "PS4"), ("genre", .str "Action"), ("publisher", .str "Pub"),
    ("predicted_sales", .num "1.2"), ("na_sales", .num "0.5"), ("eu_sales", .num "0.3"),
    ("jp_sales", .num "0.2"), ("other_sales", .num "0.2")]

/-! # Properties -/

/-! ## `escapeHtml` is the single-pass substitution (C2) -/

theorem escapeMapGet_class (c : Char) (h : c ∈ escapeClass) :
    escapeMapGet (String.singleton c) = escapeCharSpec c := by
  simp only [escapeClass, List.mem_cons, List.mem_singleton, List.not_mem_nil, or_false] at h
  rcases h with h | h | h | h | h <;> subst h <;> decide

theorem escapeCharSpec_other (c : Char) (h : c ∉ escapeClass) :
    escapeCharSpec c = String.singleton c := by
  simp only [escapeClass, List.mem_cons, List.mem_singleton, List.not_mem_nil, or_false,
    not_or] at h
  obtain ⟨h1, h2, h3, h4, h5⟩ := h
  simp [escapeCharSpec, h1, h2, h3, h4, h5]

theorem replaceClassGlobal_eq_concatOver (cs : List Char) :
    replaceClassGlobal escapeClass escapeMapGet cs = (concatOver escapeCharSpec cs).data := by
  induction cs with
  | nil => rfl
  | cons c cs ih =>
    by_cases h : c ∈ escapeClass
    · simp only [replaceClassGlobal, h, if_true, concatOver, String.data_append, ih,
        escapeMapGet_class c h]
    · simp only [replaceClassGlobal, h, if_false, concatOver, String.data_append, ih,
        escapeCharSpec_other c h]
      rfl

theorem escapeString_eq_spec (s : String) : escapeString s = escapeSpec s := by
  apply String.ext
  exact replaceClassGlobal_eq_concatOver s.data

/-- C2: for every string `s`, `escapeHtml(s)` returns the concatenation, over
the characters of `s` in order, of the entity of each of the five characters
`& < > " '` and of every other character itself: one pass, in which the `&`
of a produced entity is not escaped again. -/
theorem escapeHtml_spec (s : String) : escapeHtml (.str s) = .ok (escapeSpec s) := by
  simp only [escapeHtml, toJsString, escapeString_eq_spec]

/-! ## The train button (C8, C9) -/

theorem trainTry_frame (net : FetchOutcome) (p : Page) :
    (trainTry net p).1.trainBtnDisabled = p.trainBtnDisabled ∧
    (trainTry net p).1.timers = p.timers ∧
    ((trainTry net p).2 = .ok () →
      (trainTry net p).1.trainBtnText = "✅ Model Trained" ∨
      (trainTry net p).1.trainBtnText = "❌ Training Failed") := by
  unfold trainTry
  repeat' split
  all_goals simp

/-- C9: for every outcome of a training run, the button is disabled and reads
`Training...` while the request is pending, with no timer scheduled yet; when
the run completes it is still disabled, reads one of `Model Trained`,
`Training Failed`, `Error`, and exactly one timer of 1000 ms has been added,
whose callback enables the button. -/
theorem train_button_states (net : FetchOutcome) (p : Page) :
    (trainModelStart p).trainBtnDisabled = true ∧
    (trainModelStart p).trainBtnText = "🔄 Training..." ∧
    (trainModelStart p).timers = p.timers ∧
    (trainModel net p).1.trainBtnDisabled = true ∧
    ((trainModel net p).1.trainBtnText = "✅ Model Trained" ∨
      (trainModel net p).1.trainBtnText = "❌ Training Failed" ∨
      (trainModel net p).1.trainBtnText = "❌ Error") ∧
    (trainModel net p).1.timers = p.timers ++ [⟨1000, .enableTrainBtn⟩] ∧
    (trainModel net p).2 = .ok () ∧
    (fireTimer .enableTrainBtn (trainModel net p).1).trainBtnDisabled = false := by
  obtain ⟨h1, h2, h3⟩ := trainTry_frame net (trainModelStart p)
  refine ⟨rfl, rfl, rfl, ?_, ?_, ?_, rfl, rfl⟩
  · simp only [trainModel, trainModelSettle]
    split
    · rename_i q u heq
      rw [heq] at h1; simpa using h1
    · rename_i q e heq
      rw [heq] at h1; simpa using h1
  · simp only [trainModel, trainModelSettle]
    split
    · rename_i q u heq
      rw [heq] at h3
      rcases h3 (by cases u; rfl) with h | h
      · left; simpa using h
      · right; left; simpa using h
    · right; right; rfl
  · simp only [trainModel, trainModelSettle]
    split
    · rename_i q u heq
      rw [heq] at h2; simpa using h2
    · rename_i q e heq
      rw [heq] at h2; simpa using h2

/-- C8 (the code at the failing input): a train response with a non-2xx status
whose body is `success: true` is reported as a success: the status of the
response is never read. -/
theorem train_ignores_status (p : Page) :
    (trainModel (.responded false
        (.ok (.obj [("success", .bool true), ("message", .str "done")]))) p).1.trainBtnText
      = "✅ Model Trained" ∧
    (trainModel (.responded false
        (.ok (.obj [("success", .bool true), ("message", .str "done")]))) p).1.trainStatusColor
      = "#10b981" ∧
    (trainModel (.responded true (.ok (.obj [("success", .bool false)]))) p).1.trainStatusText
      = "❌ Error: undefined" := by
  refine ⟨rfl, rfl, rfl⟩

/-! ## Validation (C3, C4) -/

theorem getPredictions_no_year (net : FetchOutcome) (p : Page) (h : p.yearInputValue = "") :
    getPredictions net p =
      ({ p with errorText := "Please enter a year", errorHidden := false }, .ok ()) := by
  simp [getPredictions, h, showError, toTextContent, toJsString]

/-- C4: when the year text is empty, whatever the max-games text and the
network are, `getPredictions` completes normally after showing
`Please enter a year` in the error banner and changes nothing else: no request
is issued, the loading indicator and the results are untouched. -/
theorem getPredictions_missing_year (net : FetchOutcome) (p : Page)
    (h : p.yearInputValue = "") :
    getPredictions net p =
      ({ p with errorText := "Please enter a year", errorHidden := false }, .ok ()) :=
  getPredictions_no_year net p h

theorem getPredictions_missing_year_witness :
    ({ samplePage with yearInputValue := "", maxGamesValue := "abc" } : Page).yearInputValue = "" ∧
    getPredictions (.responded true (.ok sampleResponse))
        { samplePage with yearInputValue := "", maxGamesValue := "abc" } =
      ({ ({ samplePage with yearInputValue := "", maxGamesValue := "abc" } : Page) with
          errorText := "Please enter a year", errorHidden := false }, .ok ()) :=
  ⟨rfl, getPredictions_missing_year _ _ rfl⟩

/-- C3 (the code at the failing input): with year `2015` and the non-numeric
max-games text `abc`, validation passes: `abc < 1` is a comparison with NaN,
which is false.  The request is issued, no error is shown and the response is
rendered. -/
theorem getPredictions_accepts_non_numeric :
    lessThanOne "abc" = false ∧
    (getPredictions (.responded true (.ok sampleResponse))
      { samplePage with maxGamesValue := "abc" }).1.requests = [.predict "2015" "abc"] ∧
    (getPredictions (.responded true (.ok sampleResponse))
      { samplePage with maxGamesValue := "abc" }).1.errorHidden = true ∧
    (getPredictions (.responded true (.ok sampleResponse))
      { samplePage with maxGamesValue := "abc" }).1.gamesGrid.length = 1 := by
  decide

/-! ## Rendering the response (C5, C6) -/

theorem toJsString_primitive (v : JsValue) (h : isPrimitive v = true) :
    ∃ s, toJsString v = .ok s := by
  cases v with
  | undefined => exact ⟨_, rfl⟩
  | null => exact ⟨_, rfl⟩
  | bool b => cases b <;> exact ⟨_, rfl⟩
  | num t => exact ⟨t, by rw [toJsString]⟩
  | str s => exact ⟨s, by rw [toJsString]⟩
  | arr items => simp [isPrimitive] at h
  | obj props => simp [isPrimitive] at h

theorem fieldText_record (props : List (String × JsValue)) (key : String)
    (h : primitiveAt props key = true) : ∃ s, fieldText (.obj props) key = .ok s := by
  unfold primitiveAt at h
  cases hl : lookupProp key props with
  | none => exact ⟨"undefined", by simp [fieldText, getProp, hl, toJsString]⟩
  | some v =>
    rw [hl] at h
    obtain ⟨s, hs⟩ := toJsString_primitive v h
    exact ⟨s, by simp [fieldText, getProp, hl, hs]⟩

theorem fieldEscaped_record (props : List (String × JsValue)) (key : String)
    (h : primitiveAt props key = true) : ∃ s, fieldEscaped (.obj props) key = .ok s := by
  unfold primitiveAt at h
  cases hl : lookupProp key props with
  | none =>
    exact ⟨escapeString "undefined", by simp [fieldEscaped, getProp, hl, escapeHtml, toJsString]⟩
  | some v =>
    rw [hl] at h
    obtain ⟨s, hs⟩ := toJsString_primitive v h
    exact ⟨escapeString s, by simp [fieldEscaped, getProp, hl, escapeHtml, hs]⟩

theorem createGameCard_record (g : JsValue) (h : isGameRecord g = true) :
    ∃ card, createGameCard g = .ok card := by
  cases g with
  | obj props =>
    simp only [isGameRecord, gameFieldNames, List.all_cons, List.all_nil, Bool.and_true,
      Bool.and_eq_true] at h
    obtain ⟨h1, h2, h3, h4, h5, h6, h7, h8, h9, h10⟩ := h
    obtain ⟨s1, e1⟩ := fieldText_record props _ h1
    obtain ⟨s2, e2⟩ := fieldEscaped_record props _ h2
    obtain ⟨s3, e3⟩ := fieldEscaped_record props _ h3
    obtain ⟨s4, e4⟩ := fieldEscaped_record props _ h4
    obtain ⟨s5, e5⟩ := fieldEscaped_record props _ h5
    obtain ⟨s6, e6⟩ := fieldText_record props _ h6
    obtain ⟨s7, e7⟩ := fieldText_record props _ h7
    obtain ⟨s8, e8⟩ := fieldText_record props _ h8
    obtain ⟨s9, e9⟩ := fieldText_record props _ h9
    obtain ⟨s10, e10⟩ := fieldText_record props _ h10
    refine ⟨⟨"game-card", cardHTML s1 s2 s3 s4 s5 s6 s7 s8 s9 s10⟩, ?_⟩
    simp only [createGameCard, e1, e2, e3, e4, e5, e6, e7, e8, e9, e10]
  | _ => simp [isGameRecord] at h

theorem appendCards_uniform (items : List JsValue) :
    ∃ cards r, ∀ p : Page,
      appendCards items p = ({ p with gamesGrid := p.gamesGrid ++ cards }, r) := by
  induction items with
  | nil => exact ⟨[], .ok (), fun p => by simp [appendCards]⟩
  | cons g rest ih =>
    obtain ⟨cards, r, hr⟩ := ih
    cases hc : createGameCard g with
    | error e => exact ⟨[], .error e, fun p => by simp [appendCards, hc]⟩
    | ok card =>
      exact ⟨card :: cards, r, fun p => by simp [appendCards, hc, hr]⟩

theorem appendCards_all_ok (items : List JsValue)
    (h : ∀ g ∈ items, ∃ c, createGameCard g = .ok c) :
    ∃ cards : List Card, cards.map Except.ok = items.map createGameCard ∧ ∀ p : Page,
      appendCards items p = ({ p with gamesGrid := p.gamesGrid ++ cards }, .ok ()) := by
  induction items with
  | nil => exact ⟨[], rfl, fun p => by simp [appendCards]⟩
  | cons g rest ih =>
    obtain ⟨cards, hm, hr⟩ := ih (fun x hx => h x (List.mem_cons_of_mem _ hx))
    obtain ⟨c, hc⟩ := h g (List.mem_cons_self _ _)
    exact ⟨c :: cards, by simp [hc, hm], fun p => by simp [appendCards, hc, hr]⟩

theorem forEachGame_uniform (games : JsValue) :
    ∃ cards r, ∀ p : Page,
      forEachGame games p = ({ p with gamesGrid := p.gamesGrid ++ cards }, r) := by
  cases games with
  | arr items => exact appendCards_uniform items
  | undefined => exact ⟨[], _, fun p => by simp [forEachGame, getProp]; rfl⟩
  | null => exact ⟨[], _, fun p => by simp [forEachGame, getProp]; rfl⟩
  | bool b => exact ⟨[], _, fun p => by simp [forEachGame, getProp]; rfl⟩
  | num t => exact ⟨[], _, fun p => by simp [forEachGame, getProp]; rfl⟩
  | str s =>
    refine ⟨[], .error ⟨msgNotFunction "data.games.forEach"⟩, fun p => ?_⟩
    simp [forEachGame, getProp]
  | obj props =>
    refine ⟨[], .error ⟨msgNotFunction "data.games.forEach"⟩, fun p => ?_⟩
    simp only [forEachGame, getProp]
    cases lookupProp "forEach" props <;> simp

/-- What `displayResults` writes depends on the response only: either it
throws before its first write, or the summary and the cards it leaves are
those of the response, whatever the page held. -/
theorem displayResults_uniform (data : JsValue) :
    (∃ r, ∀ p : Page, displayResults data p = (p, r)) ∨
    ∃ html cards r, ∃ shown : Bool, ∀ p : Page,
      displayResults data p =
        ({ p with
            resultsSummaryHTML := html
            gamesGrid := cards
            resultsSectionHidden := if shown then false else p.resultsSectionHidden
            timers := if shown then p.timers ++ [⟨300, .scrollToResults⟩] else p.timers }, r) := by
  cases hs : summaryHTML data with
  | error e => exact Or.inl ⟨.error e, fun p => by simp [displayResults, hs]⟩
  | ok html =>
    right
    cases hg : getProp data "games" with
    | error e =>
      exact ⟨html, [], .error e, false, fun p => by simp [displayResults, hs, hg]⟩
    | ok games =>
      obtain ⟨cards, r, hr⟩ := forEachGame_uniform games
      cases r with
      | error e =>
        exact ⟨html, cards, .error e, false, fun p => by simp [displayResults, hs, hg, hr]⟩
      | ok u =>
        exact ⟨html, cards, .ok (), true, fun p => by simp [displayResults, hs, hg, hr]⟩

/-- C6: for every response and every prior page, running `displayResults` a
second time on the same response leaves the results summary, the content of
the card container and the visibility of the results section as the first run
left them. -/
theorem displayResults_idempotent (data : JsValue) (p : Page) :
    (displayResults data (displayResults data p).1).1.resultsSummaryHTML =
      (displayResults data p).1.resultsSummaryHTML ∧
    (displayResults data (displayResults data p).1).1.gamesGrid =
      (displayResults data p).1.gamesGrid ∧
    (displayResults data (displayResults data p).1).1.resultsSectionHidden =
      (displayResults data p).1.resultsSectionHidden := by
  rcases displayResults_uniform data with ⟨r, h⟩ | ⟨html, cards, r, shown, h⟩
  · simp [h]
  · rw [h (displayResults data p).1, h p]
    cases shown <;> simp

theorem summaryHTML_response (props : List (String × JsValue)) (items : List JsValue)
    (h : ["year", "total_games", "requested_stock", "message"].all (primitiveAt props) = true)
    (hg : lookupProp "games" props = some (.arr items)) :
    ∃ html, summaryHTML (.obj props) = .ok html := by
  simp only [List.all_cons, List.all_nil, Bool.and_true, Bool.and_eq_true] at h
  obtain ⟨h1, h2, h3, h4⟩ := h
  obtain ⟨s1, e1⟩ := fieldText_record props _ h1
  obtain ⟨s2, e2⟩ := fieldText_record props _ h2
  obtain ⟨s3, e3⟩ := fieldText_record props _ h3
  obtain ⟨s4, e4⟩ := fieldText_record props _ h4
  have hget : getProp (.obj props) "games" = .ok (.arr items) := by
    simp [getProp, hg]
  have hlen : fieldText (.arr items) "length" = .ok (toString items.length) := by
    simp [fieldText, getProp, toJsString]
  refine ⟨summaryTemplate s1 s2 s3 (toString items.length) s4, ?_⟩
  simp only [summaryHTML, e1, e2, e3, e4, hget, hlen]

/-- C5: for every well-formed predict response and every prior content of the
card container, `displayResults` completes normally and the container then
holds, in order, exactly the cards `createGameCard` builds from the games of
the response: as many cards as games, none dropped, duplicated or moved. -/
theorem displayResults_cards (data : JsValue) (p : Page)
    (h : isPredictResponse data = true) :
    ∃ items, getProp data "games" = .ok (.arr items) ∧
      (displayResults data p).2 = .ok () ∧
      (displayResults data p).1.gamesGrid.map Except.ok = items.map createGameCard ∧
      (displayResults data p).1.gamesGrid.length = items.length := by
  cases data with
  | obj props =>
    simp only [isPredictResponse, Bool.and_eq_true] at h
    obtain ⟨hp, hgames⟩ := h
    cases hl : lookupProp "games" props with
    | none => simp [hl] at hgames
    | some games =>
      rw [hl] at hgames
      cases games with
      | arr items =>
        simp only at hgames
        obtain ⟨html, hs⟩ := summaryHTML_response props items hp hl
        obtain ⟨cards, hm, hr⟩ := appendCards_all_ok items (fun g hg =>
          createGameCard_record g (List.all_eq_true.mp hgames g hg))
        have hget : getProp (.obj props) "games" = .ok (.arr items) := by
          simp [getProp, hl]
        refine ⟨items, hget, ?_, ?_, ?_⟩
        · simp [displayResults, hs, hget, forEachGame, hr]
        · simp [displayResults, hs, hget, forEachGame, hr, hm]
        · have := congrArg List.length hm
          simp only [List.length_map] at this
          simp [displayResults, hs, hget, forEachGame, hr, this]
      | _ => simp at hgames
  | _ => simp [isPredictResponse] at h

theorem displayResults_cards_witness :
    isPredictResponse sampleResponse = true ∧
    ∃ items, getProp sampleResponse "games" = .ok (.arr items) ∧
      (displayResults sampleResponse samplePage).2 = .ok () ∧
      (displayResults sampleResponse samplePage).1.gamesGrid.map Except.ok =
        items.map createGameCard ∧
      (displayResults sampleResponse samplePage).1.gamesGrid.length = items.length :=
  ⟨by decide, displayResults_cards sampleResponse samplePage (by decide)⟩

/-! ## Failure responses of the predict call (C7) -/

theorem showError_str (s : String) (p : Page) :
    showError (.str s) p = ({ p with errorText := s, errorHidden := false }, .ok ()) := by
  simp [showError, toTextContent, toJsString]

/-- With valid inputs `getPredictions` issues the request, runs the `try`
block, and on an exception shows `catchText` and hides the loading
indicator. -/
theorem getPredictions_valid (net : FetchOutcome) (p : Page)
    (hy : p.yearInputValue ≠ "") (hm : p.maxGamesValue ≠ "")
    (hl : lessThanOne p.maxGamesValue = false) :
    getPredictions net p =
      match predictTry net (awaitingPredict p) with
      | (q, .ok _) => (q, .ok ())
      | (q, .error e) =>
          ({ q with errorText := catchText e, errorHidden := false, loadingHidden := true },
            .ok ()) := by
  simp only [getPredictions, hy, hm, hl, if_false, Bool.or_false, decide_False,
    Bool.false_eq_true, showError_str, showLoading, hideError, awaitingPredict, catchText]
  split <;> simp_all


theorem toTextContent_truthy (v : JsValue) (h : truthy v = true) :
    toTextContent v = toJsString v := by
  cases v <;> simp_all [truthy, toTextContent]

/-- The `try` block on a response that reports a failure: the banner is set
from `data.error || 'Failed to get predictions'`. -/
theorem predictTry_failure (ok : Bool) (data : JsValue) (p : Page)
    (hfail : ok = false ∨ ∃ s, getProp data "success" = .ok s ∧ truthy s = false) :
    predictTry (.responded ok (.ok data)) p =
      match getProp data "error" with
      | .error e => (p, .error e)
      | .ok err =>
          if truthy err then
            match toJsString err with
            | .error e => (p, .error e)
            | .ok s => ({ p with errorText := s, errorHidden := false, loadingHidden := true },
                .ok ())
          else
            ({ p with errorText := "Failed to get predictions", errorHidden := false,
                      loadingHidden := true }, .ok ()) := by
  have hf : (if !ok then (Except.ok true : Except JsError Bool) else
      match getProp data "success" with
      | .error e => .error e
      | .ok success => .ok (!truthy success)) = .ok true := by
    rcases hfail with h | ⟨s, hs, ht⟩
    · simp [h]
    · cases ok <;> simp [hs, ht]
  simp only [predictTry, hf]
  cases hg : getProp data "error" with
  | error e => rfl
  | ok err =>
    by_cases ht : truthy err = true
    · simp only [ht, if_true, showError, toTextContent_truthy err ht]
      cases toJsString err <;> simp [showLoading]
    · simp [ht, showError_str, showLoading]

/-- C7 (amended): with valid inputs, for a response whose status is non-2xx or
whose `success` is falsy, `getPredictions` completes normally with the error
banner visible and the loading indicator hidden, and leaves the results
summary, the cards and the results section untouched.  The banner holds the
string form of the body `error` when that value is truthy, `Failed to get
predictions` when it is absent or falsy, and the text of the `catch` clause
when the body does not parse, is `null`, or `error` has no string form. -/
theorem predict_failure_banner (ok : Bool) (json : Except JsError JsValue) (p : Page)
    (hy : p.yearInputValue ≠ "") (hm : p.maxGamesValue ≠ "")
    (hl : lessThanOne p.maxGamesValue = false)
    (hfail : ok = false ∨
      ∃ data s, json = .ok data ∧ getProp data "success" = .ok s ∧ truthy s = false) :
    (getPredictions (.responded ok json) p).2 = .ok () ∧
    (getPredictions (.responded ok json) p).1.errorHidden = false ∧
    (getPredictions (.responded ok json) p).1.loadingHidden = true ∧
    (getPredictions (.responded ok json) p).1.resultsSummaryHTML = p.resultsSummaryHTML ∧
    (getPredictions (.responded ok json) p).1.gamesGrid = p.gamesGrid ∧
    (getPredictions (.responded ok json) p).1.resultsSectionHidden = p.resultsSectionHidden ∧
    (getPredictions (.responded ok json) p).1.errorText =
      match json with
      | .error e => catchText e
      | .ok data =>
          match getProp data "error" with
          | .error e => catchText e
          | .ok err =>
              if truthy err then
                match toJsString err with
                | .error e => catchText e
                | .ok s => s
              else "Failed to get predictions" := by
  rw [getPredictions_valid _ _ hy hm hl]
  cases json with
  | error e => simp [predictTry, awaitingPredict]
  | ok data =>
    have hfail2 : ok = false ∨ ∃ s, getProp data "success" = .ok s ∧ truthy s = false := by
      rcases hfail with h | ⟨d, s, hd, hs, ht⟩
      · exact Or.inl h
      · cases hd; exact Or.inr ⟨s, hs, ht⟩
    rw [predictTry_failure ok data _ hfail2]
    cases hg : getProp data "error" with
    | error e => simp [awaitingPredict, hg]
    | ok err =>
      by_cases ht : truthy err = true
      · simp only [ht, if_true]
        cases hs : toJsString err <;> simp [awaitingPredict, hg, hs, ht]
      · simp [ht, awaitingPredict, hg]

theorem predict_failure_banner_witness :
    samplePage.yearInputValue ≠ "" ∧ samplePage.maxGamesValue ≠ "" ∧
    lessThanOne samplePage.maxGamesValue = false ∧
    (true = false ∨ ∃ data s, (Except.ok sampleFailure : Except JsError JsValue) = .ok data ∧
      getProp data "success" = .ok s ∧ truthy s = false) ∧
    (getPredictions (.responded true (.ok sampleFailure)) samplePage).1.errorHidden = false ∧
    (getPredictions (.responded true (.ok sampleFailure)) samplePage).1.errorText =
      "No data for year" :=
  have hf : true = false ∨ ∃ data s, (Except.ok sampleFailure : Except JsError JsValue) = .ok data ∧
      getProp data "success" = .ok s ∧ truthy s = false :=
    Or.inr ⟨sampleFailure, .bool false, rfl, rfl, rfl⟩
  have h := predict_failure_banner true (.ok sampleFailure) samplePage
    (by decide) (by decide) (by decide) hf
  ⟨by decide, by decide, by decide, hf, h.2.1, h.2.2.2.2.2.2⟩

/-- C7 (counterexample): a response with a non-2xx status whose body is not
JSON, or is the JSON value `null`, has no `error` string, yet the banner does
not show `Failed to get predictions`: the exception is handled by the `catch`
clause, which shows its own text. -/
theorem predict_failure_not_generic :
    (getPredictions (.responded false (.error ⟨"Unexpected token < in JSON at position 0"⟩))
        samplePage).1.errorText =
      "An error occurred while fetching predictions: Unexpected token < in JSON at position 0" ∧
    (getPredictions (.responded false (.error ⟨"Unexpected token < in JSON at position 0"⟩))
        samplePage).1.errorText ≠ "Failed to get predictions" ∧
    (getPredictions (.responded false (.ok .null)) samplePage).1.errorText ≠
      "Failed to get predictions" := by
  decide

/-! ## No exception escapes (C10) -/

theorem displayResults_outcome (data : JsValue) (p q : Page) :
    (displayResults data p).2 = (displayResults data q).2 := by
  rcases displayResults_uniform data with ⟨r, h⟩ | ⟨html, cards, r, shown, h⟩
  · rw [h p, h q]
  · rw [h p, h q]

theorem catchText_ne_empty (e : JsError) : catchText e ≠ "" := by
  intro h
  have := congrArg String.length h
  simp only [catchText, String.length_append] at this
  have h2 : "An error occurred while fetching predictions: ".length = 46 := by decide
  have h3 : "".length = 0 := by decide
  omega

theorem trainTry_outcome (net : FetchOutcome) (p : Page) :
    (∃ ok data s m t, net = .responded ok (.ok data) ∧ getProp data "success" = .ok s ∧
        truthy s = true ∧ getProp data "message" = .ok m ∧ toTextContent m = .ok t) ∨
    (∃ e, (trainTry net p).2 = .error e) ∨
    ((trainTry net p).2 = .ok () ∧ (trainTry net p).1.trainBtnText = "❌ Training Failed" ∧
      (∃ t, (trainTry net p).1.trainStatusText = "❌ Error: " ++ t) ∧
      (trainTry net p).1.trainStatusColor = "#ef4444") := by
  cases net with
  | rejected e => exact Or.inr (Or.inl ⟨e, rfl⟩)
  | responded ok json =>
    cases json with
    | error e => exact Or.inr (Or.inl ⟨e, rfl⟩)
    | ok data =>
      cases hs : getProp data "success" with
      | error e => exact Or.inr (Or.inl ⟨e, by simp [trainTry, hs]⟩)
      | ok s =>
        by_cases ht : truthy s = true
        · cases hm : getProp data "message" with
          | error e => exact Or.inr (Or.inl ⟨e, by simp [trainTry, hs, ht, hm]⟩)
          | ok m =>
            cases hc : toTextContent m with
            | error e => exact Or.inr (Or.inl ⟨e, by simp [trainTry, hs, ht, hm, hc]⟩)
            | ok t => exact Or.inl ⟨ok, data, s, m, t, rfl, hs, ht, hm, hc⟩
        · cases hf : fieldText data "error" with
          | error e => exact Or.inr (Or.inl ⟨e, by simp [trainTry, hs, ht, hf]⟩)
          | ok t =>
            refine Or.inr (Or.inr ⟨?_, ?_, ⟨t, ?_⟩, ?_⟩) <;> simp [trainTry, hs, ht, hf]


theorem predictTry_outcome (net : FetchOutcome) (p : Page) :
    (∃ data s, net = .responded true (.ok data) ∧ getProp data "success" = .ok s ∧
        truthy s = true ∧ (displayResults data p).2 = .ok ()) ∨
    (∃ e, (predictTry net p).2 = .error e) ∨
    ((predictTry net p).2 = .ok () ∧ (predictTry net p).1.errorHidden = false ∧
      (predictTry net p).1.loadingHidden = true ∧
      ((predictTry net p).1.errorText ≠ "" ∨
        ∃ ok data err, net = .responded ok (.ok data) ∧ getProp data "error" = .ok err ∧
          truthy err = true ∧ toJsString err = .ok "")) := by
  cases net with
  | rejected e => exact Or.inr (Or.inl ⟨e, rfl⟩)
  | responded ok json =>
    cases json with
    | error e => exact Or.inr (Or.inl ⟨e, rfl⟩)
    | ok data =>
      by_cases hfail : ok = false ∨ ∃ s, getProp data "success" = .ok s ∧ truthy s = false
      · rw [predictTry_failure ok data p hfail]
        cases hg : getProp data "error" with
        | error e => exact Or.inr (Or.inl ⟨e, rfl⟩)
        | ok err =>
          by_cases ht : truthy err = true
          · cases hs : toJsString err with
            | error e => exact Or.inr (Or.inl ⟨e, by simp [ht, hs]⟩)
            | ok s =>
              refine Or.inr (Or.inr ?_)
              simp only [if_pos ht, hs]
              refine ⟨trivial, trivial, trivial, ?_⟩
              by_cases he : s = ""
              · subst he
                exact Or.inr ⟨ok, data, err, rfl, hg, ht, hs⟩
              · exact Or.inl he
          · refine Or.inr (Or.inr ?_)
            simp only [if_neg ht]
            exact ⟨trivial, trivial, trivial, Or.inl (by decide)⟩
      · have hok : ok = true := by
          cases ok
          · exact absurd (Or.inl rfl) hfail
          · rfl
        subst hok
        cases hs : getProp data "success" with
        | error e => exact Or.inr (Or.inl ⟨e, by simp [predictTry, hs]⟩)
        | ok s =>
          have ht : truthy s = true := by
            cases h : truthy s
            · exact absurd (Or.inr ⟨s, hs, h⟩) hfail
            · rfl
          cases hd : displayResults data p with
          | mk q r =>
            cases r with
            | error e => exact Or.inr (Or.inl ⟨e, by simp [predictTry, hs, ht, hd]⟩)
            | ok u => exact Or.inl ⟨data, s, rfl, hs, ht, by rw [hd]⟩

theorem getPredictions_completes (net : FetchOutcome) (p : Page) :
    (getPredictions net p).2 = .ok () := by
  by_cases hy : p.yearInputValue = ""
  · rw [getPredictions_no_year net p hy]
  · by_cases hm : p.maxGamesValue = "" ∨ lessThanOne p.maxGamesValue = true
    · have : (p.maxGamesValue = "" || lessThanOne p.maxGamesValue) = true := by
        rcases hm with h | h <;> simp [h]
      simp [getPredictions, hy, this, showError_str]
    · have hm1 : p.maxGamesValue ≠ "" := fun h => hm (Or.inl h)
      have hl : lessThanOne p.maxGamesValue = false := by
        cases h : lessThanOne p.maxGamesValue
        · rfl
        · exact absurd (Or.inr h) hm
      rw [getPredictions_valid net p hy hm1 hl]
      split <;> rfl

/-- C10 (amended): whatever the network answers, neither `getPredictions` nor
`trainModel` lets an exception escape.  With valid inputs, `getPredictions`
either renders the response (a 2xx status, a body whose `success` is truthy,
`displayResults` completing) or ends with the error banner visible and the
loading indicator hidden; the banner text is then non-empty, except when the
body `error` is a truthy value whose string form is empty.  For `trainModel`
the case of a non-2xx response whose body has a truthy `success` is left out
(the status is not read there, which is the defect of C8); in every other
case it either reports the success of a 2xx response whose `success` is
truthy, or ends with the button reading `Training Failed` or `Error`, the
status text starting with the error mark and the status in the error
colour. -/
theorem no_uncaught_error (net : FetchOutcome) (p : Page) :
    (getPredictions net p).2 = .ok () ∧
    (trainModel net p).2 = .ok () ∧
    (p.yearInputValue ≠ "" → p.maxGamesValue ≠ "" → lessThanOne p.maxGamesValue = false →
      (∃ data s, net = .responded true (.ok data) ∧ getProp data "success" = .ok s ∧
          truthy s = true ∧ (displayResults data p).2 = .ok ()) ∨
      ((getPredictions net p).1.errorHidden = false ∧
        (getPredictions net p).1.loadingHidden = true ∧
        ((getPredictions net p).1.errorText ≠ "" ∨
          ∃ ok data err, net = .responded ok (.ok data) ∧ getProp data "error" = .ok err ∧
            truthy err = true ∧ toJsString err = .ok ""))) ∧
    ((∀ data s, net = .responded false (.ok data) → getProp data "success" = .ok s →
        truthy s = false) →
      (∃ data s m t, net = .responded true (.ok data) ∧ getProp data "success" = .ok s ∧
          truthy s = true ∧ getProp data "message" = .ok m ∧ toTextContent m = .ok t) ∨
      (((trainModel net p).1.trainBtnText = "❌ Training Failed" ∨
          (trainModel net p).1.trainBtnText = "❌ Error") ∧
        (∃ t, (trainModel net p).1.trainStatusText = "❌ Error: " ++ t) ∧
        (trainModel net p).1.trainStatusColor = "#ef4444")) := by
  refine ⟨getPredictions_completes net p, rfl, ?_, ?_⟩
  · intro hy hm hl
    rw [getPredictions_valid net p hy hm hl]
    rcases predictTry_outcome net (awaitingPredict p) with ⟨data, s, hn, hs, ht, hd⟩ | ⟨e, he⟩ | h
    · exact Or.inl ⟨data, s, hn, hs, ht, by rw [displayResults_outcome data p (awaitingPredict p)]; exact hd⟩
    · right
      cases hpt : predictTry net (awaitingPredict p) with
      | mk q r =>
        rw [hpt] at he
        simp only at he
        subst he
        exact ⟨rfl, rfl, Or.inl (catchText_ne_empty e)⟩
    · right
      cases hpt : predictTry net (awaitingPredict p) with
      | mk q r =>
        rw [hpt] at h
        obtain ⟨h1, h2, h3, h4⟩ := h
        simp only at h1
        subst h1
        exact ⟨h2, h3, h4⟩
  · intro hstatus
    rcases trainTry_outcome net (trainModelStart p) with h | ⟨e, he⟩ | ⟨h1, h2, h3, h4⟩
    · obtain ⟨ok, data, s, m, t, hn, hs, ht, hm, hc⟩ := h
      cases ok with
      | true => exact Or.inl ⟨data, s, m, t, hn, hs, ht, hm, hc⟩
      | false =>
        have hf := hstatus data s hn hs
        rw [ht] at hf
        cases hf
    · right
      simp only [trainModel, trainModelSettle]
      cases hpt : trainTry net (trainModelStart p) with
      | mk q r =>
        rw [hpt] at he
        simp only at he
        subst he
        exact ⟨Or.inr rfl, ⟨e.message, rfl⟩, rfl⟩
    · right
      simp only [trainModel, trainModelSettle]
      cases hpt : trainTry net (trainModelStart p) with
      | mk q r =>
        rw [hpt] at h1 h2 h3 h4
        simp only at h1
        subst h1
        exact ⟨Or.inl h2, h3, h4⟩

theorem no_uncaught_error_witness :
    samplePage.yearInputValue ≠ "" ∧ samplePage.maxGamesValue ≠ "" ∧
    lessThanOne samplePage.maxGamesValue = false ∧
    (∀ data s, FetchOutcome.responded false (.ok sampleFailure) = .responded false (.ok data) →
      getProp data "success" = .ok s → truthy s = false) ∧
    (getPredictions (.responded false (.ok sampleFailure)) samplePage).2 = .ok () ∧
    (trainModel (.responded false (.ok sampleFailure)) samplePage).2 = .ok () ∧
    (getPredictions (.responded false (.ok sampleFailure)) samplePage).1.errorHidden = false ∧
    (getPredictions (.responded false (.ok sampleFailure)) samplePage).1.loadingHidden = true ∧
    ((trainModel (.responded false (.ok sampleFailure)) samplePage).1.trainBtnText =
        "❌ Training Failed" ∨
      (trainModel (.responded false (.ok sampleFailure)) samplePage).1.trainBtnText =
        "❌ Error") ∧
    (trainModel (.responded false (.ok sampleFailure)) samplePage).1.trainStatusColor =
      "#ef4444" := by
  have hstatus : ∀ data s,
      FetchOutcome.responded false (.ok sampleFailure) = .responded false (.ok data) →
      getProp data "success" = .ok s → truthy s = false := by
    intro data s hn hs
    cases hn
    cases hs
    rfl
  have h := no_uncaught_error (.responded false (.ok sampleFailure)) samplePage
  have hb := h.2.2.1 (by decide) (by decide) (by decide)
  have ht := h.2.2.2 hstatus
  refine ⟨by decide, by decide, by decide, hstatus, h.1, h.2.1, ?_, ?_, ?_, ?_⟩
  · rcases hb with ⟨_, _, hn, _⟩ | hr
    · cases hn
    · exact hr.1
  · rcases hb with ⟨_, _, hn, _⟩ | hr
    · cases hn
    · exact hr.2.1
  · rcases ht with ⟨_, _, _, _, hn, _⟩ | hr
    · cases hn
    · exact hr.1
  · rcases ht with ⟨_, _, _, _, hn, _⟩ | hr
    · cases hn
    · exact hr.2.2

/-- C10 (counterexample): the body `success: false, error: []` ends with the
error banner visible but empty: the empty array is truthy, so it is used as
the message, and its string form is the empty string. -/
theorem predict_banner_without_message :
    (getPredictions
      (.responded true (.ok (.obj [("success", .bool false), ("error", .arr [])])))
      samplePage).1.errorHidden = false ∧
    (getPredictions
      (.responded true (.ok (.obj [("success", .bool false), ("error", .arr [])])))
      samplePage).1.errorText = "" := by
  decide

/-! ## Escaping in the card markup (C1) -/

theorem scan_cons (k : Nat) (c : Char) (cs : List Char) :
    scan k (c :: cs) = scan (scanStep k c) cs := rfl

theorem scan_append (k : Nat) (a b : List Char) : scan k (a ++ b) = scan (scan k a) b := by
  simp [scan, List.foldl_append]

theorem scanStep_le (k : Nat) (c : Char) (h : k ≤ 8) : scanStep k c ≤ 8 := by
  unfold scanStep
  split
  · exact le_refl _
  · split
    · omega
    · split <;> omega

theorem scan_le (cs : List Char) (k : Nat) (h : k ≤ 8) : scan k cs ≤ 8 := by
  induction cs generalizing k with
  | nil => exact h
  | cons c cs ih => exact ih _ (scanStep_le k c h)

theorem scan_full (cs : List Char) : scan 8 cs = 8 := by
  induction cs with
  | nil => rfl
  | cons c cs ih => rw [scan_cons]; simpa [scanStep] using ih

/-- Reading one more character moves the search state as the occurrences of
the tag require. -/
theorem tag_step (k : Nat) (hk : k ≤ 8) (c : Char) (rest : List Char) :
    scriptTag.data <:+: scriptTag.data.take k ++ c :: rest ↔
      scriptTag.data <:+: scriptTag.data.take (scanStep k c) ++ rest := by
  by_cases h1 : scriptTag.data[k]? = some c
  · interval_cases k <;> simp [scriptTag] at h1 <;> subst h1 <;> simp [scanStep, scriptTag]
  · by_cases h2 : c = '<'
    · subst h2
      interval_cases k <;> simp [scriptTag] at h1 <;>
        simp [scanStep, scriptTag, List.infix_cons_iff, List.cons_prefix_cons]
    · have h3 : ¬ '<' = c := fun h => h2 h.symm
      interval_cases k <;> simp [scriptTag] at h1 <;>
        simp [scanStep, scriptTag, List.infix_cons_iff, List.cons_prefix_cons, h1, h2, h3]

theorem scan_eq_full_iff (cs : List Char) (k : Nat) (hk : k ≤ 8) :
    scan k cs = 8 ↔ scriptTag.data <:+: scriptTag.data.take k ++ cs := by
  induction cs generalizing k with
  | nil =>
    interval_cases k <;> simp [scan, scriptTag, List.infix_cons_iff, List.cons_prefix_cons]
  | cons c cs ih =>
    rw [scan_cons, ih _ (scanStep_le k c hk), tag_step k hk]

/-- The search finds the tag exactly in the texts that include it. -/
theorem includes_scriptTag_iff (s : String) : includes s scriptTag ↔ scan 0 s.data = 8 := by
  rw [scan_eq_full_iff _ 0 (by omega)]
  simp [includes]

theorem scan_of_resets (t rest : List Char) (ht : resets t = true) (k : Nat) (hk : k < 8) :
    scan k (t ++ rest) = scan 0 rest := by
  rw [scan_append]
  simp only [resets, List.all_eq_true, List.mem_range, decide_eq_true_eq] at ht
  rw [ht k hk]

theorem scan_raw_then_resets (r t rest : List Char) (ht : resets t = true) :
    scan 0 (r ++ (t ++ rest)) = 8 ↔ scan 0 r = 8 ∨ scan 0 rest = 8 := by
  rw [scan_append]
  by_cases h : scan 0 r = 8
  · simp [h, scan_full]
  · have hlt : scan 0 r < 8 := lt_of_le_of_ne (scan_le r 0 (by omega)) h
    rw [scan_of_resets t rest ht _ hlt]
    simp [h]

theorem scan_no_open (cs : List Char) (h : '<' ∉ cs) : scan 0 cs = 0 := by
  induction cs with
  | nil => rfl
  | cons c cs ih =>
    have hc : ¬ '<' = c := fun e => h (e ▸ List.mem_cons_self _ _)
    have hc2 : ¬ c = '<' := fun e => hc e.symm
    have hs : scanStep 0 c = 0 := by simp [scanStep, scriptTag, hc, hc2]
    rw [scan_cons, hs]
    exact ih (fun hm => h (List.mem_cons_of_mem _ hm))

theorem scan_escaped_then_resets (e t rest : List Char) (he : '<' ∉ e) (ht : resets t = true) :
    scan 0 (e ++ (t ++ rest)) = scan 0 rest := by
  rw [scan_append, scan_no_open e he, scan_of_resets t rest ht 0 (by omega)]

theorem escapeCharSpec_no_open (c : Char) : '<' ∉ (escapeCharSpec c).data := by
  unfold escapeCharSpec
  split
  · decide
  · split
    · decide
    · split
      · decide
      · split
        · decide
        · split
          · decide
          · rename_i h1 h2 h3 h4 h5
            intro h
            have h' : '<' ∈ [c] := h
            rw [List.mem_singleton] at h'
            exact h2 h'.symm

theorem escapeString_no_open (s : String) : '<' ∉ (escapeString s).data := by
  rw [escapeString_eq_spec]
  unfold escapeSpec
  induction s.data with
  | nil => simp [concatOver]
  | cons c cs ih =>
    simp only [concatOver, String.data_append, List.mem_append, not_or]
    exact ⟨escapeCharSpec_no_open c, ih⟩

set_option maxRecDepth 100000 in
theorem resets_rankBadge_0 :
    resets "<div class=\"game-rank\">#".data = true := by
  decide

set_option maxRecDepth 100000 in
theorem resets_rankBadge_1 :
    resets "</div>".data = true := by
  decide

set_option maxRecDepth 100000 in
theorem resets_gameDetails_0 :
    resets "\n        <div class=\"game-name\">".data = true := by
  decide

set_option maxRecDepth 100000 in
theorem resets_gameDetails_1 :
    resets "</div>\n        <div class=\"game-details\">\n            <div class=\"game-detail\">\n                <span class=\"game-detail-label\">Platform:</span>\n                <span class=\"game-platform\">".data = true := by
  decide

set_option maxRecDepth 100000 in
theorem resets_gameDetails_2 :
    resets "</span>\n            </div>\n            <div class=\"game-detail\">\n                <span class=\"game-detail-label\">Genre:</span>\n                <span class=\"game-genre\">".data = true := by
  decide

set_option maxRecDepth 100000 in
theorem resets_gameDetails_3 :
    resets "</span>\n            </div>\n            <div class=\"game-detail\">\n                <span class=\"game-detail-label\">Publisher:</span>\n                <span class=\"game-detail-value\">".data = true := by
  decide

set_option maxRecDepth 100000 in
theorem resets_gameDetails_4 :
    resets "</span>\n            </div>\n        </div>\n    ".data = true := by
  decide

set_option maxRecDepth 100000 in
theorem resets_salesInfo_0 :
    resets "\n        <div class=\"game-sales\">\n            <div class=\"sales-label\">Predicted Global Sales</div>\n            <div class=\"sales-value\">".data = true := by
  decide

set_option maxRecDepth 100000 in
theorem resets_salesInfo_1 :
    resets "M</div>\n        </div>\n    ".data = true := by
  decide

set_option maxRecDepth 100000 in
theorem resets_regionalBreakdown_0 :
    resets "\n        <div class=\"regional-breakdown\">\n            <div class=\"regional-item\">\n                <div class=\"regional-label\">NA</div>\n                <div class=\"regional-value\">".data = true := by
  decide

set_option maxRecDepth 100000 in
theorem resets_regionalBreakdown_1 :
    resets "M</div>\n            </div>\n            <div class=\"regional-item\">\n                <div class=\"regional-label\">EU</div>\n                <div class=\"regional-value\">".data = true := by
  decide

set_option maxRecDepth 100000 in
theorem resets_regionalBreakdown_2 :
    resets "M</div>\n            </div>\n            <div class=\"regional-item\">\n                <div class=\"regional-label\">JP</div>\n                <div class=\"regional-value\">".data = true := by
  decide

set_option maxRecDepth 100000 in
theorem resets_regionalBreakdown_3 :
    resets "M</div>\n            </div>\n            <div class=\"regional-item\">\n                <div class=\"regional-label\">Other</div>\n                <div class=\"regional-value\">".data = true := by
  decide

set_option maxRecDepth 100000 in
theorem resets_regionalBreakdown_4 :
    resets "M</div>\n            </div>\n        </div>\n    ".data = true := by
  decide

theorem scan_raw_at_end (r t : List Char) (ht : resets t = true) :
    scan 0 (r ++ t) = 8 ↔ scan 0 r = 8 := by
  have h := scan_raw_then_resets r t [] ht
  simp only [List.append_nil] at h
  rw [h]
  simp [scan]

/-- The raw tag occurs in the markup of a card exactly when it occurs in one
of the six substitutions that are inserted unescaped, provided the other four
hold no `<`. -/
theorem cardHTML_scan (rank name platform genre publisher sales na eu jp other : String)
    (h1 : '<' ∉ name.data) (h2 : '<' ∉ platform.data) (h3 : '<' ∉ genre.data)
    (h4 : '<' ∉ publisher.data) :
    scan 0 (cardHTML rank name platform genre publisher sales na eu jp other).data = 8 ↔
      scan 0 rank.data = 8 ∨ scan 0 sales.data = 8 ∨ scan 0 na.data = 8 ∨
        scan 0 eu.data = 8 ∨ scan 0 jp.data = 8 ∨ scan 0 other.data = 8 := by
  simp only [cardHTML, rankBadge, gameDetails, salesInfo, regionalBreakdown,
    String.data_append, List.append_assoc]
  rw [scan_of_resets _ _ resets_rankBadge_0 0 (by omega),
    scan_raw_then_resets _ _ _ resets_rankBadge_1,
    scan_of_resets _ _ resets_gameDetails_0 0 (by omega),
    scan_escaped_then_resets _ _ _ h1 resets_gameDetails_1,
    scan_escaped_then_resets _ _ _ h2 resets_gameDetails_2,
    scan_escaped_then_resets _ _ _ h3 resets_gameDetails_3,
    scan_escaped_then_resets _ _ _ h4 resets_gameDetails_4,
    scan_of_resets _ _ resets_salesInfo_0 0 (by omega),
    scan_raw_then_resets _ _ _ resets_salesInfo_1,
    scan_of_resets _ _ resets_regionalBreakdown_0 0 (by omega),
    scan_raw_then_resets _ _ _ resets_regionalBreakdown_1,
    scan_raw_then_resets _ _ _ resets_regionalBreakdown_2,
    scan_raw_then_resets _ _ _ resets_regionalBreakdown_3,
    scan_raw_at_end _ _ resets_regionalBreakdown_4]


theorem fieldEscaped_of_fieldText (g : JsValue) (key s : String)
    (h : fieldText g key = .ok s) : fieldEscaped g key = .ok (escapeString s) := by
  unfold fieldText at h
  unfold fieldEscaped
  cases hg : getProp g key with
  | error e => rw [hg] at h; cases h
  | ok v =>
    rw [hg] at h
    simp only at h
    simp [escapeHtml, h]

theorem concatOver_append (f : Char → String) (a b : List Char) :
    (concatOver f (a ++ b)).data = (concatOver f a).data ++ (concatOver f b).data := by
  induction a with
  | nil => simp [concatOver]
  | cons c a ih => simp [concatOver, String.data_append, ih]

theorem escapeString_keeps_tag (s : String) (h : includes s scriptTag) :
    includes (escapeString s) escapedScriptTag := by
  obtain ⟨a, b, hab⟩ := h
  refine ⟨(concatOver escapeCharSpec a).data, (concatOver escapeCharSpec b).data, ?_⟩
  rw [escapeString_eq_spec]
  unfold escapeSpec
  rw [← hab, concatOver_append, concatOver_append]
  rfl

theorem sub_left (a b x : List Char) (h : x <:+: a) : x <:+: a ++ b := by
  obtain ⟨u, v, huv⟩ := h
  exact ⟨u, v ++ b, by simp [← huv, List.append_assoc]⟩

theorem sub_right (a b x : List Char) (h : x <:+: b) : x <:+: a ++ b := by
  obtain ⟨u, v, huv⟩ := h
  exact ⟨a ++ u, v, by simp [← huv, List.append_assoc]⟩

/-- Whatever occurs in one of the four escaped substitutions occurs in the
markup of the card. -/
theorem includes_cardHTML_of_text (rank name platform genre publisher sales na eu jp other
    x : String)
    (h : includes name x ∨ includes platform x ∨ includes genre x ∨ includes publisher x) :
    includes (cardHTML rank name platform genre publisher sales na eu jp other) x := by
  simp only [includes, cardHTML, rankBadge, gameDetails, salesInfo, regionalBreakdown,
    String.data_append, List.append_assoc] at h ⊢
  rcases h with h | h | h | h <;>
    repeat (first | exact sub_left _ _ _ h | apply sub_right)

/-- C1 (amended): for every game whose ten rendered properties have a string
form, `createGameCard` returns the card whose markup is the template filled
with the escaped `name`, `platform`, `genre` and `publisher` and with the
unescaped `rank` and sales values.  When one of the four escaped values
includes `<script>`, its escaped form includes `&lt;script&gt;`, and so does
the card.  The card includes the raw tag exactly when one of the six unescaped
values includes it. -/
theorem card_escapes_text_fields (g : JsValue)
    (rank name platform genre publisher sales na eu jp other : String)
    (h1 : fieldText g "rank" = .ok rank) (h2 : fieldText g "name" = .ok name)
    (h3 : fieldText g "platform" = .ok platform) (h4 : fieldText g "genre" = .ok genre)
    (h5 : fieldText g "publisher" = .ok publisher)
    (h6 : fieldText g "predicted_sales" = .ok sales) (h7 : fieldText g "na_sales" = .ok na)
    (h8 : fieldText g "eu_sales" = .ok eu) (h9 : fieldText g "jp_sales" = .ok jp)
    (h10 : fieldText g "other_sales" = .ok other) :
    createGameCard g = .ok ⟨"game-card",
      cardHTML rank (escapeString name) (escapeString platform) (escapeString genre)
        (escapeString publisher) sales na eu jp other⟩ ∧
    (∀ s ∈ [name, platform, genre, publisher], includes s scriptTag →
      includes (escapeString s) escapedScriptTag ∧
      includes (cardHTML rank (escapeString name) (escapeString platform) (escapeString genre)
        (escapeString publisher) sales na eu jp other) escapedScriptTag) ∧
    (includes (cardHTML rank (escapeString name) (escapeString platform) (escapeString genre)
        (escapeString publisher) sales na eu jp other) scriptTag ↔
      includes rank scriptTag ∨ includes sales scriptTag ∨ includes na scriptTag ∨
        includes eu scriptTag ∨ includes jp scriptTag ∨ includes other scriptTag) := by
  refine ⟨?_, ?_, ?_⟩
  · simp only [createGameCard, h1, h6, h7, h8, h9, h10,
      fieldEscaped_of_fieldText g _ _ h2, fieldEscaped_of_fieldText g _ _ h3,
      fieldEscaped_of_fieldText g _ _ h4, fieldEscaped_of_fieldText g _ _ h5]
  · intro s hs hinc
    have he := escapeString_keeps_tag s hinc
    refine ⟨he, includes_cardHTML_of_text _ _ _ _ _ _ _ _ _ _ _ ?_⟩
    simp only [List.mem_cons, List.mem_singleton, List.not_mem_nil, or_false] at hs
    rcases hs with hs | hs | hs | hs
    · subst hs; exact Or.inl he
    · subst hs; exact Or.inr (Or.inl he)
    · subst hs; exact Or.inr (Or.inr (Or.inl he))
    · subst hs; exact Or.inr (Or.inr (Or.inr he))
  · simp only [includes_scriptTag_iff]
    exact cardHTML_scan _ _ _ _ _ _ _ _ _ _ (escapeString_no_open name)
      (escapeString_no_open platform) (escapeString_no_open genre)
      (escapeString_no_open publisher)

set_option maxRecDepth 100000 in
theorem card_escapes_text_fields_witness :
    fieldText scriptNameGame "rank" = .ok "1" ∧
    fieldText scriptNameGame "name" = .ok "<script>alert(1)</script>" ∧
    fieldText scriptNameGame "platform" = .ok "PS4" ∧
    fieldText scriptNameGame "genre" = .ok "Action" ∧
    fieldText scriptNameGame "publisher" = .ok "Pub" ∧
    fieldText scriptNameGame "predicted_sales" = .ok "1.2" ∧
    fieldText scriptNameGame "na_sales" = .ok "0.5" ∧
    fieldText scriptNameGame "eu_sales" = .ok "0.3" ∧
    fieldText scriptNameGame "jp_sales" = .ok "0.2" ∧
    fieldText scriptNameGame "other_sales" = .ok "0.2" ∧
    includes (escapeString "<script>alert(1)</script>") escapedScriptTag ∧
    ¬ includes (cardHTML "1" (escapeString "<script>alert(1)</script>") (escapeString "PS4")
        (escapeString "Action") (escapeString "Pub") "1.2" "0.5" "0.3" "0.2" "0.2") scriptTag :=
  have h := card_escapes_text_fields scriptNameGame "1" "<script>alert(1)</script>" "PS4"
    "Action" "Pub" "1.2" "0.5" "0.3" "0.2" "0.2" rfl rfl rfl rfl rfl rfl rfl rfl rfl rfl
  ⟨rfl, rfl, rfl, rfl, rfl, rfl, rfl, rfl, rfl, rfl,
    (h.2.1 "<script>alert(1)</script>" (by simp) (by decide)).1,
    fun hc => absurd (h.2.2.mp hc) (by decide)⟩

theorem includes_first_char (text needle : String) (c : Char) (rest : List Char)
    (hn : needle.data = c :: rest) (h : includes text needle) : c ∈ text.data := by
  obtain ⟨a, b, hab⟩ := h
  rw [← hab, hn]
  simp

set_option maxRecDepth 100000 in
/-- C1 (counterexample): a game whose `rank` is the string `<script>` yields a
card whose markup includes the raw tag and not its escaped form: `rank` is
inserted as it is. -/
theorem card_rank_not_escaped :
    createGameCard scriptRankGame = .ok ⟨"game-card",
      cardHTML "<script>" "Game A" "PS4" "Action" "Pub" "1.2" "0.5" "0.3" "0.2" "0.2"⟩ ∧
    includes (cardHTML "<script>" "Game A" "PS4" "Action" "Pub" "1.2" "0.5" "0.3" "0.2" "0.2")
      scriptTag ∧
    ¬ includes (cardHTML "<script>" "Game A" "PS4" "Action" "Pub" "1.2" "0.5" "0.3" "0.2" "0.2")
      escapedScriptTag := by
  refine ⟨rfl, ?_, ?_⟩
  · rw [includes_scriptTag_iff]
    exact (cardHTML_scan _ _ _ _ _ _ _ _ _ _ (by decide) (by decide) (by decide)
      (by decide)).mpr (Or.inl (by decide))
  · intro h
    have hc := includes_first_char _ _ '&' "lt;script&gt;".data rfl h
    revert hc
    decide

end GameStockAdvisor
